import Mathlib

/-!
Verification of the k2qc quality-control core (`k2qc/core.py`).

The Python code is shallowly embedded: header values become an inductive
`HVal`, Python exceptions become the inductive `PyErr`, each `verify_*`
method of `TargetPixelFileValidator` becomes an executable function
`TPF → Except PyErr Unit` (an `AssertionError` models a failed `assert`),
and `validate` becomes a pure function threading the `QualityIssueLogger`
state and emitting a trace of open/check/close events.

Modelling conventions:
* Numeric header and pixel values are rationals (`ℚ`); the checks only
  compare and add them, so no floating-point behaviour is involved in any
  verified statement.  NaN pixels never satisfy `x < 0` in Python and are
  simply not modelled.
* Text is modelled as Lean `String`s; inside the issue logger the stored
  messages are `List Char` so that the flat-file round trip can be
  analysed character by character.
* External library calls that the source treats as opaque
  (`astropy.io.fits.verify`, `astropy.wcs.WCS`, `all_pix2world`) are
  oracle fields of the `TPF` record: the file model carries their
  outcome, and the embedded checks consume that outcome exactly the way
  the source does.
* `PyErr` models the `Exception` hierarchy reachable from this code;
  string header values stand for the non-numeric text (`'N/A'` etc.)
  that `float()` rejects with `ValueError`.
-/

deriving instance DecidableEq for Except

/-- Python exception kinds distinguished by the embedded code. -/
inductive PyErr where
  | assertionError
  | typeError
  | valueError
  | keyError
  | indexError
  | libError (name : String)
deriving DecidableEq, Repr

/-- A FITS header card value: undefined (Python `None`), a number, or a
(non-numeric) text value. -/
inductive HVal where
  | undef
  | num (q : ℚ)
  | str (s : String)
deriving DecidableEq, Repr

/-- Embeds `header[k]`: a missing keyword raises `KeyError`, a present one yields
its value (possibly `None`). -/
def headerGet (h : String → Option HVal) (k : String) : Except PyErr HVal :=
  match h k with
  | some v => Except.ok v
  | none => Except.error PyErr.keyError

/-- Python `float(x)` on a header value: `None` raises `TypeError`,
non-numeric text raises `ValueError`. -/
def pyFloat : HVal → Except PyErr ℚ
  | HVal.num q => Except.ok q
  | HVal.undef => Except.error PyErr.typeError
  | HVal.str _ => Except.error PyErr.valueError

/-- A header value used directly in arithmetic or an ordered comparison:
anything non-numeric raises `TypeError`. -/
def numHV : HVal → Except PyErr ℚ
  | HVal.num q => Except.ok q
  | _ => Except.error PyErr.typeError

/-- Python `int(x)` on a header value (truncation toward zero). -/
def pyInt : HVal → Except PyErr Int
  | HVal.num q => Except.ok (if 0 ≤ q then q.floor else q.ceil)
  | HVal.undef => Except.error PyErr.typeError
  | HVal.str _ => Except.error PyErr.valueError

/-- Python `==` between header values (never raises). -/
def pyEqHV : HVal → HVal → Bool
  | HVal.num a, HVal.num b => a = b
  | HVal.str a, HVal.str b => a = b
  | HVal.undef, HVal.undef => true
  | _, _ => false

/-- Python `x == n` for an integer literal `n`. -/
def pyEqInt (v : HVal) (n : Int) : Bool :=
  pyEqHV v (HVal.num n)

/-- Python `v < n` where `n` is numeric: comparing text or `None` with a
number raises `TypeError`. -/
def pyLtNum (v : HVal) (n : ℚ) : Except PyErr Bool :=
  match v with
  | HVal.num q => Except.ok (q < n)
  | _ => Except.error PyErr.typeError

/-- Python `v in [n, ...]` over integer literals (membership via `==`). -/
def hvalInIntList (v : HVal) (l : List Int) : Bool :=
  l.any (fun n => pyEqInt v n)

/-- A Python `assert` statement. -/
def pyAssert (p : Prop) [Decidable p] : Except PyErr Unit :=
  if p then Except.ok () else Except.error PyErr.assertionError

/-- Embeds `'{}'.format(value)` for the header values this code formats; the
rendering of non-integral rationals abstracts Python's float formatting
(the checked headers are integers). -/
def formatHV : HVal → String
  | HVal.num q => if q.den = 1 then toString q.num else toString q.num ++ "/" ++ toString q.den
  | HVal.str s => s
  | HVal.undef => "None"

/-- A rectangular 3-d numpy array (cadence × row × column) of rationals. -/
structure Arr3 where
  d0 : Nat
  d1 : Nat
  d2 : Nat
  val : Nat → Nat → Nat → ℚ

/-- Embeds `arr.shape`. -/
def Arr3.shape (a : Arr3) : List Nat := [a.d0, a.d1, a.d2]

/-- The Target Pixel File as seen by the validator: the three headers it
reads (`tpf[0]`, `tpf[1]`, `tpf[2]`), the table columns, the APERTURE
image, and oracle fields for the opaque astropy library calls. -/
structure TPF where
  hdr0 : String → Option HVal
  hdr1 : String → Option HVal
  hdr2 : String → Option HVal
  /-- Outcome of `self.tpf.verify(option='exception')`. -/
  verifyRes : Except PyErr Unit
  /-- Outcome of constructing `WCS(self.tpf[2].header)`. -/
  wcsRes : Except PyErr Unit
  /-- Embeds `w.all_pix2world([[x, y]], 0)[0]` as a function of the pixel centre. -/
  wcsPix2World : ℚ → ℚ → ℚ × ℚ
  timeShape : List Nat
  timecorrShape : List Nat
  cadencenoShape : List Nat
  flux : Arr3
  fluxErr : Arr3
  rawCnts : Arr3
  fluxBkg : Arr3
  fluxBkgErr : Arr3
  quality : List Int
  apertureData : List (List ℚ)

/-- The issue logger: formatted messages plus the processed-file counter.
Messages are stored as character lists for the flat-file analysis. -/
structure QualityIssueLogger where
  issues : List (List Char)
  tpf_files_checked : Nat
deriving DecidableEq, Repr

/-- The message `'{}: {}'.format(filename, issue)`. -/
def fmtIssue (filename issue : List Char) : List Char :=
  filename ++ (": ").data ++ issue

/-- Embeds `QualityIssueLogger.report_issue`: format and append (the immediate
`print` to the live channel carries no state and is not modelled). -/
def report_issue (log : QualityIssueLogger) (filename issue : List Char) :
    QualityIssueLogger :=
  { log with issues := log.issues ++ [fmtIssue filename issue] }

/-- Embeds `QualityIssueLogger.record_issues`: opening `issues.txt` with mode
`'w+'` truncates, so the prior sink contents are ignored; each message is
written followed by a newline. -/
def record_issues (log : QualityIssueLogger) (_priorSink : List Char) : List Char :=
  log.issues.foldl (fun acc m => acc ++ m ++ ['\n']) []

/-! ### The eleven check procedures -/

/-- Embeds `verify_fits_standard`: any exception from `self.tpf.verify` is turned
into `assert False`. -/
def verify_fits_standard (t : TPF) : Except PyErr Unit :=
  match t.verifyRes with
  | Except.ok _ => Except.ok ()
  | Except.error _ => Except.error PyErr.assertionError

/-- Embeds `verify_table_shapes`: consistency of the binary-table column shapes
(`TIME` is the 1-d time column, so `shape[0]` is its head). -/
def verify_table_shapes (t : TPF) : Except PyErr Unit :=
  match pyAssert (t.timeShape = t.timecorrShape) with
  | Except.error e => Except.error e
  | Except.ok _ =>
  match pyAssert (t.timeShape = t.cadencenoShape) with
  | Except.error e => Except.error e
  | Except.ok _ =>
  match pyAssert (t.timeShape.headD 0 = t.flux.d0) with
  | Except.error e => Except.error e
  | Except.ok _ =>
  match pyAssert (t.flux.shape = t.fluxErr.shape) with
  | Except.error e => Except.error e
  | Except.ok _ =>
  match pyAssert (t.flux.shape = t.rawCnts.shape) with
  | Except.error e => Except.error e
  | Except.ok _ =>
  match pyAssert (t.flux.shape = t.fluxBkg.shape) with
  | Except.error e => Except.error e
  | Except.ok _ => pyAssert (t.flux.shape = t.fluxBkgErr.shape)

/-- Embeds `verify_aperture_img`: the APERTURE image must not sum to zero. -/
def verify_aperture_img (t : TPF) : Except PyErr Unit :=
  pyAssert (0 < (t.apertureData.map List.sum).sum)

/-- Embeds `verify_aperture_img_shape`: `TDIM5` must equal the formatted
`"(NAXIS1,NAXIS2)"` string. -/
def verify_aperture_img_shape (t : TPF) : Except PyErr Unit :=
  match headerGet t.hdr1 "TDIM5" with
  | Except.error e => Except.error e
  | Except.ok tdim =>
  match headerGet t.hdr2 "NAXIS1" with
  | Except.error e => Except.error e
  | Except.ok n1 =>
  match headerGet t.hdr2 "NAXIS2" with
  | Except.error e => Except.error e
  | Except.ok n2 =>
    pyAssert (pyEqHV tdim
      (HVal.str ("(" ++ formatHV n1 ++ "," ++ formatHV n2 ++ ")")) = true)

/-- The thruster-firing flag bit. -/
def THRUSTER_FIRING_FLAG : Int := 1048576

/-- Campaigns whose Type-1 files carry no thruster flags. -/
def CAMPAIGNS_WITHOUT_THRUSTER_FLAGS : List Int := [91, 92, 101]

/-- Embeds `((QUALITY & THRUSTER_FIRING_FLAG) > 0).sum()`. -/
def countThrusterFirings (quality : List Int) : Nat :=
  (quality.filter (fun q => 0 < Int.land q THRUSTER_FIRING_FLAG)).length

/-- Embeds `verify_thruster_flags`. -/
def verify_thruster_flags (t : TPF) : Except PyErr Unit :=
  match t.hdr0 "CAMPAIGN" with
  | none => Except.ok ()
  | some v =>
    if hvalInIntList v CAMPAIGNS_WITHOUT_THRUSTER_FLAGS then Except.ok ()
    else
      match headerGet t.hdr1 "TELAPSE" with
      | Except.error e => Except.error e
      | Except.ok telapse =>
        match numHV telapse with
        | Except.error e => Except.error e
        | Except.ok q => pyAssert (q < (countThrusterFirings t.quality : ℚ))

/-- Embeds `verify_quality_flags`: some cadence has `QUALITY == 0`. -/
def verify_quality_flags (t : TPF) : Except PyErr Unit :=
  pyAssert (0 < (t.quality.filter (fun q => q = 0)).length)

/-- Embeds `verify_wcs_keywords`: any exception from `WCS(...)` becomes
`assert False`. -/
def verify_wcs_keywords (t : TPF) : Except PyErr Unit :=
  match t.wcsRes with
  | Except.ok _ => Except.ok ()
  | Except.error _ => Except.error PyErr.assertionError

/-- Embeds `verify_wcs_coordinates`: the WCS construction error propagates here
(no try/except); the projected centre must match `RA_OBJ`/`DEC_OBJ` to
0.1 degrees. -/
def verify_wcs_coordinates (t : TPF) : Except PyErr Unit :=
  match t.wcsRes with
  | Except.error e => Except.error e
  | Except.ok _ =>
  match headerGet t.hdr2 "NAXIS1" with
  | Except.error e => Except.error e
  | Except.ok n1v =>
  match numHV n1v with
  | Except.error e => Except.error e
  | Except.ok n1 =>
  match headerGet t.hdr2 "NAXIS2" with
  | Except.error e => Except.error e
  | Except.ok n2v =>
  match numHV n2v with
  | Except.error e => Except.error e
  | Except.ok n2 =>
    let rd := t.wcsPix2World (n1 / 2) (n2 / 2)
    match headerGet t.hdr0 "RA_OBJ" with
    | Except.error e => Except.error e
    | Except.ok rav =>
    match numHV rav with
    | Except.error e => Except.error e
    | Except.ok ra =>
    match pyAssert (|rd.1 - ra| < 1 / 10) with
    | Except.error e => Except.error e
    | Except.ok _ =>
    match headerGet t.hdr0 "DEC_OBJ" with
    | Except.error e => Except.error e
    | Except.ok decv =>
    match numHV decv with
    | Except.error e => Except.error e
    | Except.ok dec => pyAssert (|rd.2 - dec| < 1 / 10)

/-- Embeds `FLUX + FLUX_BKG` at one pixel. -/
def fluxPlusBkg (t : TPF) (c i j : Nat) : ℚ :=
  t.flux.val c i j + t.fluxBkg.val c i j

/-- Number of negative `FLUX + FLUX_BKG` pixels in frame `c`. -/
def negCount (t : TPF) (c : Nat) : Nat :=
  ((List.range t.flux.d1).map (fun i =>
    ((List.range t.flux.d2).filter (fun j => fluxPlusBkg t c i j < 0)).length)).sum

/-- Embeds `((flux_plus_bkg < 0).sum(axis=(1, 2))[mask]).sum()` where `mask` is
`QUALITY == 0` (out-of-range cadences default to a nonzero quality; the
source presupposes `len(QUALITY) = FLUX.shape[0]`). -/
def maskedNegTotal (t : TPF) : Nat :=
  (((List.range t.flux.d0).filter (fun c => t.quality.getD c 1 = 0)).map
    (negCount t)).sum

/-- Embeds `np.argwhere(flux_plus_bkg < 0)` in C (lexicographic) order. -/
def badPixels (t : TPF) : List (Nat × Nat × Nat) :=
  (List.range t.flux.d0).flatMap (fun c =>
    (List.range t.flux.d1).flatMap (fun i =>
      ((List.range t.flux.d2).filter (fun j => fluxPlusBkg t c i j < 0)).map
        (fun j => (c, i, j))))

/-- The diagnostic line printed for one offending pixel. -/
def badPixelMsg (p : Nat × Nat × Nat) : String :=
  match p with
  | (c, i, j) =>
    "FLUX + FLUX_BKG < 0 found at frame " ++ toString c ++
      ", pixel coordinates (" ++ toString i ++ "," ++ toString j ++ ")"

/-- The scan part of `verify_positive_flux`: printed lines plus outcome. -/
def positiveFluxScan (t : TPF) : List String × Except PyErr Unit :=
  if 0 < maskedNegTotal t then
    (((badPixels t).filter (fun p => t.quality.getD p.1 1 = 0)).map badPixelMsg,
      Except.error PyErr.assertionError)
  else ([], Except.ok ())

/-- Embeds `verify_positive_flux` with its printed output: skip entirely when
`CHANNEL == 43` and `CRVAL1P < 100` (short-circuit `and`, so `CRVAL1P` is
only read when `CHANNEL == 43`). -/
def verify_positive_flux_run (t : TPF) : List String × Except PyErr Unit :=
  match headerGet t.hdr0 "CHANNEL" with
  | Except.error e => ([], Except.error e)
  | Except.ok ch =>
    if pyEqInt ch 43 then
      match headerGet t.hdr2 "CRVAL1P" with
      | Except.error e => ([], Except.error e)
      | Except.ok cr =>
        match pyLtNum cr 100 with
        | Except.error e => ([], Except.error e)
        | Except.ok true => ([], Except.ok ())
        | Except.ok false => positiveFluxScan t
    else positiveFluxScan t

/-- Embeds `verify_positive_flux` as a check (outcome only). -/
def verify_positive_flux (t : TPF) : Except PyErr Unit :=
  (verify_positive_flux_run t).2

/-- The body of `verify_cdpp`'s `try:` block, assertions and float
conversions in source order. -/
def cdppBody (t : TPF) : Except PyErr Unit :=
  match headerGet t.hdr1 "CDPP3_0" with
  | Except.error e => Except.error e
  | Except.ok v3 =>
  match pyFloat v3 with
  | Except.error e => Except.error e
  | Except.ok a =>
  match pyAssert (0 < a) with
  | Except.error e => Except.error e
  | Except.ok _ =>
  match headerGet t.hdr1 "CDPP6_0" with
  | Except.error e => Except.error e
  | Except.ok v6 =>
  match pyFloat v6 with
  | Except.error e => Except.error e
  | Except.ok b =>
  match pyAssert (0 < b) with
  | Except.error e => Except.error e
  | Except.ok _ =>
  match headerGet t.hdr1 "CDPP12_0" with
  | Except.error e => Except.error e
  | Except.ok v12 =>
  match pyFloat v12 with
  | Except.error e => Except.error e
  | Except.ok c =>
  match pyAssert (0 < c) with
  | Except.error e => Except.error e
  | Except.ok _ =>
  match headerGet t.hdr0 "KEPMAG" with
  | Except.error e => Except.error e
  | Except.ok kv =>
  match pyFloat kv with
  | Except.error e => Except.error e
  | Except.ok m =>
    if m < 15 then
      match headerGet t.hdr1 "CDPP3_0" with
      | Except.error e => Except.error e
      | Except.ok w3 =>
      match pyFloat w3 with
      | Except.error e => Except.error e
      | Except.ok a2 =>
      match pyAssert (a2 < 10000) with
      | Except.error e => Except.error e
      | Except.ok _ =>
      match headerGet t.hdr1 "CDPP6_0" with
      | Except.error e => Except.error e
      | Except.ok w6 =>
      match pyFloat w6 with
      | Except.error e => Except.error e
      | Except.ok b2 =>
      match pyAssert (b2 < 10000) with
      | Except.error e => Except.error e
      | Except.ok _ =>
      match headerGet t.hdr1 "CDPP12_0" with
      | Except.error e => Except.error e
      | Except.ok w12 =>
      match pyFloat w12 with
      | Except.error e => Except.error e
      | Except.ok c2 => pyAssert (c2 < 10000)
    else Except.ok ()

/-- Embeds `verify_cdpp`: only `TypeError` is caught (`except TypeError: return`). -/
def verify_cdpp (t : TPF) : Except PyErr Unit :=
  match cdppBody t with
  | Except.error PyErr.typeError => Except.ok ()
  | r => r

/-- The last run of digits in a string, as built up left to right
(`int(re.findall(r'\d+', s)[-1])`). -/
def lastDigitRunAux : List Char → Option Nat → Bool → Option Nat
  | [], last, _ => last
  | ch :: rest, last, inRun =>
    if ch.isDigit then
      let d := ch.toNat - 48
      if inRun then lastDigitRunAux rest (some ((last.getD 0) * 10 + d)) true
      else lastDigitRunAux rest (some d) true
    else lastDigitRunAux rest last false

/-- Embeds `re.findall(r'\d+', s)` and take the last match, if any. -/
def lastDigitRun (s : String) : Option Nat :=
  lastDigitRunAux s.data none false

/-- Embeds `verify_campaign_number`: only applies when `MISSION != 'Kepler'`;
indexing `[-1]` into an empty match list raises `IndexError`. -/
def verify_campaign_number (fname : String) (t : TPF) : Except PyErr Unit :=
  match headerGet t.hdr0 "MISSION" with
  | Except.error e => Except.error e
  | Except.ok mission =>
    if pyEqHV mission (HVal.str "Kepler") then Except.ok ()
    else
      match headerGet t.hdr0 "CAMPAIGN" with
      | Except.error e => Except.error e
      | Except.ok cv =>
      match pyInt cv with
      | Except.error e => Except.error e
      | Except.ok ch =>
        match lastDigitRun fname with
        | none => Except.error PyErr.indexError
        | some d => pyAssert (ch = (d : Int))

/-! ### The validate loop -/

/-- An event observable during one `validate` call. -/
inductive Ev where
  | openFile (f : String)
  | runCheck (n : String)
  | closeFile
deriving DecidableEq, Repr

/-- A named list of check procedures (each receives the filename and the
loaded file, as the bound methods receive `self`). -/
abbrev CheckList : Type :=
  List (String × (String → TPF → Except PyErr Unit))

/-- The verification methods found by
`[m for m in dir(self) if m.startswith('verify')]`: Python's `dir()`
returns attribute names sorted alphabetically, so this is the
alphabetical list of the eleven `verify_*` methods of
`TargetPixelFileValidator`. -/
def verificationMethods : CheckList :=
  [("verify_aperture_img", fun _ t => verify_aperture_img t),
   ("verify_aperture_img_shape", fun _ t => verify_aperture_img_shape t),
   ("verify_campaign_number", fun f t => verify_campaign_number f t),
   ("verify_cdpp", fun _ t => verify_cdpp t),
   ("verify_fits_standard", fun _ t => verify_fits_standard t),
   ("verify_positive_flux", fun _ t => verify_positive_flux t),
   ("verify_quality_flags", fun _ t => verify_quality_flags t),
   ("verify_table_shapes", fun _ t => verify_table_shapes t),
   ("verify_thruster_flags", fun _ t => verify_thruster_flags t),
   ("verify_wcs_coordinates", fun _ t => verify_wcs_coordinates t),
   ("verify_wcs_keywords", fun _ t => verify_wcs_keywords t)]

/-- The names of the discovered checks, in the order `validate` runs them. -/
def verificationMethodNames : List String :=
  verificationMethods.map Prod.fst

/-- The order in which the `verify_*` methods are declared in
`k2qc/core.py` (top to bottom of the class body). -/
def declarationOrderNames : List String :=
  ["verify_fits_standard", "verify_table_shapes", "verify_aperture_img",
   "verify_aperture_img_shape", "verify_thruster_flags",
   "verify_quality_flags", "verify_wcs_keywords", "verify_wcs_coordinates",
   "verify_positive_flux", "verify_cdpp", "verify_campaign_number"]

/-- The names of the checks on `t` that fail with `AssertionError`. -/
def failingNames (fname : String) (t : TPF) : CheckList → List String
  | [] => []
  | (n, c) :: rest =>
    if c fname t = Except.error PyErr.assertionError then
      n :: failingNames fname t rest
    else failingNames fname t rest

/-- The `for verification in verification_methods:` loop of `validate`:
`AssertionError` is caught and reported, any other exception aborts the
loop and propagates (carrying along the logger state reached so far). -/
def runChecks (fname : String) (t : TPF) :
    QualityIssueLogger → CheckList →
    List Ev × QualityIssueLogger × Option PyErr
  | log, [] => ([], log, none)
  | log, (n, c) :: rest =>
    match c fname t with
    | Except.ok _ =>
      let r := runChecks fname t log rest
      (Ev.runCheck n :: r.1, r.2)
    | Except.error PyErr.assertionError =>
      let r := runChecks fname t (report_issue log fname.data n.data) rest
      (Ev.runCheck n :: r.1, r.2)
    | Except.error e => ([Ev.runCheck n], log, some e)

/-- Embeds `TargetPixelFileValidator.validate`: open the file, run the checks,
and only on normal completion of the loop close the file and increment
`tpf_files_checked` (there is no try/finally around the loop). The result
is the event trace, the logger state, and the escaping exception if any. -/
def validate (log : QualityIssueLogger) (fname : String) (t : TPF) :
    List Ev × QualityIssueLogger × Option PyErr :=
  match runChecks fname t log verificationMethods with
  | (evs, log2, none) =>
    (Ev.openFile fname :: (evs ++ [Ev.closeFile]),
     { log2 with tpf_files_checked := log2.tpf_files_checked + 1 }, none)
  | (evs, log2, some e) => (Ev.openFile fname :: evs, log2, some e)

/-- The filenames carried by the `openFile` events of a trace. -/
def openEvents (evs : List Ev) : List String :=
  evs.filterMap (fun ev =>
    match ev with
    | Ev.openFile f => some f
    | _ => none)

/-- The check names carried by the `runCheck` events of a trace. -/
def checkEvents (evs : List Ev) : List String :=
  evs.filterMap (fun ev =>
    match ev with
    | Ev.runCheck n => some n
    | _ => none)

/-- How many `closeFile` events a trace holds. -/
def closeCount (evs : List Ev) : Nat :=
  (evs.filter (fun ev =>
    match ev with
    | Ev.closeFile => true
    | _ => false)).length

/-! ### The batch runner -/

/-- The part of the file system `check_path` looks at: whether the given
path is a directory, and if so the entries directly under it. -/
structure FS where
  path : String
  isDir : Bool
  entries : List String

/-- Embeds `glob.glob(os.path.join(path, '*' + suffix))`: under a directory this
matches exactly the entries with the suffix; joining a pattern under a
non-directory path matches nothing. -/
def globSuffix (fs : FS) (suffix : String) : List String :=
  if fs.isDir then
    fs.entries.filter (fun n => suffix.data.isSuffixOf n.data) else []

/-- The files `KeplerQualityPolice.check_path` iterates over (each is
passed to `validator.validate` in this order). -/
def check_path_filenames (fs : FS) : List String :=
  globSuffix fs "-targ.fits" ++ globSuffix fs "-targ.fits.gz"

/-! ### Parsing the flat issue file back -/

/-- Split a character stream at the first occurrence of `": "`, if any. -/
def splitFirstSep : List Char → Option (List Char × List Char)
  | [] => none
  | a :: rest =>
    if a = ':' ∧ rest.head? = some ' ' then some ([], rest.tail)
    else
      match splitFirstSep rest with
      | some (x, y) => some (a :: x, y)
      | none => none

/-- Split a character stream into its newline-terminated lines. -/
def splitLines : List Char → List (List Char)
  | [] => []
  | c :: rest =>
    if c = '\n' then [] :: splitLines rest
    else
      match splitLines rest with
      | [] => [[c]]
      | l :: ls => (c :: l) :: ls

/-- Parse one issue line at its first `": "`. -/
def parseLine (l : List Char) : List Char × List Char :=
  match splitFirstSep l with
  | some (a, b) => (a, b)
  | none => (l, [])

/-- Re-parse a recorded issue file into (filename, check name) pairs. -/
def parseIssues (content : List Char) : List (List Char × List Char) :=
  (splitLines content).map parseLine

/-- Report a sequence of (filename, check name) pairs in order. -/
def reportAll (log : QualityIssueLogger) :
    List (List Char × List Char) → QualityIssueLogger
  | [] => log
  | p :: rest => reportAll (report_issue log p.1 p.2) rest

/-! ### Concrete files used as witnesses and counterexamples -/

/-- Replace one keyword's value in a header. -/
def setKey (h : String → Option HVal) (k : String) (v : HVal) :
    String → Option HVal :=
  fun x => if x = k then some v else h x

/-- Primary header of a well-formed Kepler file (no `CAMPAIGN` card). -/
def goodHdr0 : String → Option HVal := fun k =>
  if k = "MISSION" then some (HVal.str "Kepler")
  else if k = "CHANNEL" then some (HVal.num 1)
  else if k = "RA_OBJ" then some (HVal.num 10)
  else if k = "DEC_OBJ" then some (HVal.num 20)
  else if k = "KEPMAG" then some (HVal.num 16)
  else none

/-- Binary-table header of the well-formed file. -/
def goodHdr1 : String → Option HVal := fun k =>
  if k = "TDIM5" then some (HVal.str "(1,1)")
  else if k = "TELAPSE" then some (HVal.num 1)
  else if k = "CDPP3_0" then some (HVal.num 100)
  else if k = "CDPP6_0" then some (HVal.num 100)
  else if k = "CDPP12_0" then some (HVal.num 100)
  else none

/-- Image-extension header of the well-formed file. -/
def goodHdr2 : String → Option HVal := fun k =>
  if k = "NAXIS1" then some (HVal.num 1)
  else if k = "NAXIS2" then some (HVal.num 1)
  else if k = "CRVAL1P" then some (HVal.num 500)
  else none

/-- A 1×1×1 array of ones. -/
def oneArr : Arr3 := ⟨1, 1, 1, fun _ _ _ => 1⟩

/-- A file on which every one of the eleven checks passes. -/
def tGood : TPF :=
  { hdr0 := goodHdr0
    hdr1 := goodHdr1
    hdr2 := goodHdr2
    verifyRes := Except.ok ()
    wcsRes := Except.ok ()
    wcsPix2World := fun _ _ => (10, 20)
    timeShape := [1]
    timecorrShape := [1]
    cadencenoShape := [1]
    flux := oneArr
    fluxErr := oneArr
    rawCnts := oneArr
    fluxBkg := oneArr
    fluxBkgErr := oneArr
    quality := [0]
    apertureData := [[1]] }

/-- Variant of `tGood` with a failing FITS-integrity oracle and an empty aperture:
exactly `verify_fits_standard` and `verify_aperture_img` fail. -/
def tTwoFail : TPF :=
  { tGood with
    verifyRes := Except.error (PyErr.libError "VerifyError")
    apertureData := [[0]] }

/-- Variant of `tGood` with non-numeric text in `CDPP3_0`: `float('N/A')` raises
`ValueError`, which `verify_cdpp` does not catch. -/
def tStrCdpp : TPF :=
  { tGood with hdr1 := setKey goodHdr1 "CDPP3_0" (HVal.str "N/A") }

/-- Variant of `tGood` with `KEPMAG` undefined and a negative `CDPP3_0`. -/
def tUnsetKepmag : TPF :=
  { tGood with
    hdr0 := setKey goodHdr0 "KEPMAG" HVal.undef
    hdr1 := setKey goodHdr1 "CDPP3_0" (HVal.num (-1)) }

/-- There is a perfect-quality cadence holding a negative
`FLUX + FLUX_BKG` pixel (the condition `positive_flux` tests). -/
def hasNegFluxAtGoodCadence (t : TPF) : Prop :=
  ∃ c, c < t.flux.d0 ∧ t.quality.getD c 1 = 0 ∧
    ∃ i, i < t.flux.d1 ∧ ∃ j, j < t.flux.d2 ∧ fluxPlusBkg t c i j < 0

/-- The diagnostic lines `positive_flux` prints on failure: every
negative pixel whose frame has `QUALITY == 0`, in scan order. -/
def offendingPrints (t : TPF) : List String :=
  ((badPixels t).filter (fun p => t.quality.getD p.1 1 = 0)).map badPixelMsg

/-- The all-pass file with a `CAMPAIGN` card outside the exclusion set
and no thruster-firing flags set. -/
def tCampaign : TPF :=
  { tGood with hdr0 := setKey goodHdr0 "CAMPAIGN" (HVal.num 5) }

/-- A channel-43 file in the known bad-column region with a strongly
negative background: `positive_flux` must skip it entirely. -/
def tBadColumn : TPF :=
  { tGood with
    hdr0 := setKey goodHdr0 "CHANNEL" (HVal.num 43)
    hdr2 := setKey goodHdr2 "CRVAL1P" (HVal.num 50)
    fluxBkg := ⟨1, 1, 1, fun _ _ _ => -5⟩ }

/-- Strict lexicographic order on character lists (by code point), used to
state that `dir()` returns names in alphabetical order. -/
def charListLt : List Char → List Char → Bool
  | [], [] => false
  | [], _ :: _ => true
  | _ :: _, [] => false
  | a :: as, b :: bs =>
    if a.val < b.val then true
    else if a.val = b.val then charListLt as bs
    else false

/-! ### Evaluating each check on the concrete files -/

theorem tGood_fits : verify_fits_standard tGood = Except.ok () := by decide

theorem tGood_table : verify_table_shapes tGood = Except.ok () := by decide

theorem tGood_aperture : verify_aperture_img tGood = Except.ok () := by
  norm_num [verify_aperture_img, tGood, pyAssert]

theorem tGood_aperture_shape : verify_aperture_img_shape tGood = Except.ok () := by
  decide

theorem tGood_thruster : verify_thruster_flags tGood = Except.ok () := by decide

theorem tGood_quality : verify_quality_flags tGood = Except.ok () := by decide

theorem tGood_wcs_kw : verify_wcs_keywords tGood = Except.ok () := by decide

theorem tGood_wcs_coord : verify_wcs_coordinates tGood = Except.ok () := by
  simp +decide only [verify_wcs_coordinates, tGood, goodHdr0, goodHdr2, headerGet,
    numHV, pyAssert]
  norm_num

theorem tGood_pos_flux : verify_positive_flux tGood = Except.ok () := by
  norm_num +decide [verify_positive_flux, verify_positive_flux_run, tGood, goodHdr0,
    goodHdr2, headerGet, pyEqInt, pyEqHV, positiveFluxScan, maskedNegTotal, negCount,
    fluxPlusBkg, oneArr, List.range_succ]

theorem tGood_cdpp : verify_cdpp tGood = Except.ok () := by decide

theorem tGood_campaign : verify_campaign_number "f" tGood = Except.ok () := by decide

theorem tTwoFail_fits :
    verify_fits_standard tTwoFail = Except.error PyErr.assertionError := by decide

theorem tTwoFail_table : verify_table_shapes tTwoFail = Except.ok () := by decide

theorem tTwoFail_aperture :
    verify_aperture_img tTwoFail = Except.error PyErr.assertionError := by
  norm_num [verify_aperture_img, tTwoFail, tGood, pyAssert]

theorem tTwoFail_aperture_shape :
    verify_aperture_img_shape tTwoFail = Except.ok () := by decide

theorem tTwoFail_thruster : verify_thruster_flags tTwoFail = Except.ok () := by decide

theorem tTwoFail_quality : verify_quality_flags tTwoFail = Except.ok () := by decide

theorem tTwoFail_wcs_kw : verify_wcs_keywords tTwoFail = Except.ok () := by decide

theorem tTwoFail_wcs_coord : verify_wcs_coordinates tTwoFail = Except.ok () := by
  simp +decide only [verify_wcs_coordinates, tTwoFail, tGood, goodHdr0, goodHdr2,
    headerGet, numHV, pyAssert]
  norm_num

theorem tTwoFail_pos_flux : verify_positive_flux tTwoFail = Except.ok () := by
  norm_num +decide [verify_positive_flux, verify_positive_flux_run, tTwoFail, tGood,
    goodHdr0, goodHdr2, headerGet, pyEqInt, pyEqHV, positiveFluxScan, maskedNegTotal,
    negCount, fluxPlusBkg, oneArr, List.range_succ]

theorem tTwoFail_cdpp : verify_cdpp tTwoFail = Except.ok () := by decide

theorem tTwoFail_campaign :
    verify_campaign_number "f" tTwoFail = Except.ok () := by decide

theorem tStrCdpp_aperture : verify_aperture_img tStrCdpp = Except.ok () := by
  norm_num [verify_aperture_img, tStrCdpp, tGood, pyAssert]

theorem tStrCdpp_aperture_shape :
    verify_aperture_img_shape tStrCdpp = Except.ok () := by decide

theorem tStrCdpp_campaign :
    verify_campaign_number "f" tStrCdpp = Except.ok () := by decide

theorem tStrCdpp_cdpp :
    verify_cdpp tStrCdpp = Except.error PyErr.valueError := by decide

theorem tUnsetKepmag_cdpp :
    verify_cdpp tUnsetKepmag = Except.error PyErr.assertionError := by decide

/-! ### Generic lemmas about the check loop -/

theorem runChecks_nil (fname : String) (t : TPF) (log : QualityIssueLogger) :
    runChecks fname t log [] = ([], log, none) := rfl

theorem runChecks_ok_all (fname : String) (t : TPF) :
    ∀ (l : CheckList) (log : QualityIssueLogger),
      (∀ p ∈ l, p.2 fname t = Except.ok () ∨
        p.2 fname t = Except.error PyErr.assertionError) →
      runChecks fname t log l =
        (l.map (fun p => Ev.runCheck p.1),
         { issues := log.issues ++
             (failingNames fname t l).map (fun n => fmtIssue fname.data n.data),
           tpf_files_checked := log.tpf_files_checked },
         none) := by
  intro l
  induction l with
  | nil => intro log _; simp [runChecks, failingNames]
  | cons p rest ih =>
    obtain ⟨n, c⟩ := p
    intro log h
    have hrest : ∀ q ∈ rest, q.2 fname t = Except.ok () ∨
        q.2 fname t = Except.error PyErr.assertionError :=
      fun q hq => h q (List.mem_cons_of_mem _ hq)
    rcases h (n, c) (List.mem_cons_self _ _) with h1 | h1
    · have h2 : c fname t = Except.ok () := h1
      simp [runChecks, failingNames, h2, ih _ hrest]
    · have h2 : c fname t = Except.error PyErr.assertionError := h1
      simp [runChecks, failingNames, h2, ih _ hrest, report_issue, List.append_assoc]

theorem runChecks_abort (fname : String) (t : TPF) (e : PyErr)
    (he : e ≠ PyErr.assertionError) :
    ∀ (l1 : CheckList) (n : String) (c : String → TPF → Except PyErr Unit)
      (l2 : CheckList) (log : QualityIssueLogger),
      (∀ p ∈ l1, p.2 fname t = Except.ok () ∨
        p.2 fname t = Except.error PyErr.assertionError) →
      c fname t = Except.error e →
      runChecks fname t log (l1 ++ (n, c) :: l2) =
        (l1.map (fun p => Ev.runCheck p.1) ++ [Ev.runCheck n],
         { issues := log.issues ++
             (failingNames fname t l1).map (fun m => fmtIssue fname.data m.data),
           tpf_files_checked := log.tpf_files_checked },
         some e) := by
  intro l1
  induction l1 with
  | nil =>
    intro n c l2 log _ hc
    cases e with
    | assertionError => exact absurd rfl he
    | typeError => simp [runChecks, hc, failingNames]
    | valueError => simp [runChecks, hc, failingNames]
    | keyError => simp [runChecks, hc, failingNames]
    | indexError => simp [runChecks, hc, failingNames]
    | libError s => simp [runChecks, hc, failingNames]
  | cons p rest ih =>
    obtain ⟨m, d⟩ := p
    intro n c l2 log h hc
    have hrest : ∀ q ∈ rest, q.2 fname t = Except.ok () ∨
        q.2 fname t = Except.error PyErr.assertionError :=
      fun q hq => h q (List.mem_cons_of_mem _ hq)
    rcases h (m, d) (List.mem_cons_self _ _) with h1 | h1
    · have h2 : d fname t = Except.ok () := h1
      simp [runChecks, failingNames, h2, ih n c l2 log hrest hc]
    · have h2 : d fname t = Except.error PyErr.assertionError := h1
      have ihh := ih n c l2 (report_issue log fname.data m.data) hrest hc
      simp only [report_issue] at ihh
      simp [runChecks, failingNames, h2, ihh, report_issue, List.append_assoc]

theorem openEvents_cons_run (n : String) (l : List Ev) :
    openEvents (Ev.runCheck n :: l) = openEvents l := rfl

theorem closeCount_cons_run (n : String) (l : List Ev) :
    closeCount (Ev.runCheck n :: l) = closeCount l := rfl

theorem checkEvents_cons_run (n : String) (l : List Ev) :
    checkEvents (Ev.runCheck n :: l) = n :: checkEvents l := rfl

theorem runChecks_trace (fname : String) (t : TPF) :
    ∀ (l : CheckList) (log : QualityIssueLogger),
      openEvents (runChecks fname t log l).1 = [] ∧
      closeCount (runChecks fname t log l).1 = 0 ∧
      checkEvents (runChecks fname t log l).1 <+: l.map Prod.fst := by
  intro l
  induction l with
  | nil =>
    intro log
    exact ⟨rfl, rfl, List.nil_prefix⟩
  | cons p rest ih =>
    obtain ⟨n, c⟩ := p
    intro log
    cases hc : c fname t with
    | ok u =>
      obtain ⟨ih1, ih2, ih3⟩ := ih log
      simp only [runChecks, hc]
      exact ⟨by rw [openEvents_cons_run]; exact ih1,
        by rw [closeCount_cons_run]; exact ih2,
        by rw [checkEvents_cons_run, List.map_cons]
           exact List.cons_prefix_cons.mpr ⟨rfl, ih3⟩⟩
    | error e =>
      cases e with
      | assertionError =>
        obtain ⟨ih1, ih2, ih3⟩ := ih (report_issue log fname.data n.data)
        simp only [runChecks, hc]
        exact ⟨by rw [openEvents_cons_run]; exact ih1,
          by rw [closeCount_cons_run]; exact ih2,
          by rw [checkEvents_cons_run, List.map_cons]
             exact List.cons_prefix_cons.mpr ⟨rfl, ih3⟩⟩
      | typeError =>
        simp only [runChecks, hc]
        exact ⟨rfl, rfl, List.cons_prefix_cons.mpr ⟨rfl, List.nil_prefix⟩⟩
      | valueError =>
        simp only [runChecks, hc]
        exact ⟨rfl, rfl, List.cons_prefix_cons.mpr ⟨rfl, List.nil_prefix⟩⟩
      | keyError =>
        simp only [runChecks, hc]
        exact ⟨rfl, rfl, List.cons_prefix_cons.mpr ⟨rfl, List.nil_prefix⟩⟩
      | indexError =>
        simp only [runChecks, hc]
        exact ⟨rfl, rfl, List.cons_prefix_cons.mpr ⟨rfl, List.nil_prefix⟩⟩
      | libError s =>
        simp only [runChecks, hc]
        exact ⟨rfl, rfl, List.cons_prefix_cons.mpr ⟨rfl, List.nil_prefix⟩⟩

theorem failingNames_nil_of_ok (fname : String) (t : TPF) :
    ∀ l : CheckList, (∀ p ∈ l, p.2 fname t = Except.ok ()) →
      failingNames fname t l = [] := by
  intro l
  induction l with
  | nil => intro _; rfl
  | cons p rest ih =>
    obtain ⟨n, c⟩ := p
    intro h
    have h1 : c fname t = Except.ok () := h (n, c) (List.mem_cons_self _ _)
    simp [failingNames, h1, ih (fun q hq => h q (List.mem_cons_of_mem _ hq))]

/-- C1: on a file where every check terminates normally or with
`AssertionError`, `validate` appends one issue per failing check — the
file's path with the check's name, in loop order — and runs every check;
a non-`AssertionError` exception instead escapes `validate` after
aborting the remaining checks. -/
theorem validate_assertion_isolation
    (log : QualityIssueLogger) (fname : String) (t : TPF) :
    ((∀ p ∈ verificationMethods, p.2 fname t = Except.ok () ∨
        p.2 fname t = Except.error PyErr.assertionError) →
      validate log fname t =
        (Ev.openFile fname ::
           (verificationMethods.map (fun p => Ev.runCheck p.1) ++ [Ev.closeFile]),
         { issues := log.issues ++
             (failingNames fname t verificationMethods).map
               (fun n => fmtIssue fname.data n.data),
           tpf_files_checked := log.tpf_files_checked + 1 },
         none))
    ∧ (∀ (l1 : CheckList) (n : String) (c : String → TPF → Except PyErr Unit)
         (l2 : CheckList) (e : PyErr),
        verificationMethods = l1 ++ (n, c) :: l2 →
        (∀ p ∈ l1, p.2 fname t = Except.ok () ∨
          p.2 fname t = Except.error PyErr.assertionError) →
        c fname t = Except.error e → e ≠ PyErr.assertionError →
        validate log fname t =
          (Ev.openFile fname ::
             (l1.map (fun p => Ev.runCheck p.1) ++ [Ev.runCheck n]),
           { issues := log.issues ++
               (failingNames fname t l1).map (fun m => fmtIssue fname.data m.data),
             tpf_files_checked := log.tpf_files_checked },
           some e)) := by
  constructor
  · intro h
    unfold validate
    rw [runChecks_ok_all fname t verificationMethods log h]
  · intro l1 n c l2 e hsplit h hc he
    unfold validate
    rw [hsplit, runChecks_abort fname t e he l1 n c l2 log h hc]

theorem tTwoFail_outcomes :
    ∀ p ∈ verificationMethods, p.2 "f" tTwoFail = Except.ok () ∨
      p.2 "f" tTwoFail = Except.error PyErr.assertionError := by
  simp [verificationMethods, tTwoFail_fits, tTwoFail_table, tTwoFail_aperture,
    tTwoFail_aperture_shape, tTwoFail_thruster, tTwoFail_quality, tTwoFail_wcs_kw,
    tTwoFail_wcs_coord, tTwoFail_pos_flux, tTwoFail_cdpp, tTwoFail_campaign]

/-- Witness for C1 at a file with exactly two assertion failures. -/
theorem validate_assertion_isolation_witness :
    (∀ p ∈ verificationMethods, p.2 "f" tTwoFail = Except.ok () ∨
       p.2 "f" tTwoFail = Except.error PyErr.assertionError) ∧
    validate ⟨[], 0⟩ "f" tTwoFail =
      (Ev.openFile "f" ::
         (verificationMethods.map (fun p => Ev.runCheck p.1) ++ [Ev.closeFile]),
       { issues := [] ++
           (failingNames "f" tTwoFail verificationMethods).map
             (fun n => fmtIssue "f".data n.data),
         tpf_files_checked := 0 + 1 },
       none) :=
  ⟨tTwoFail_outcomes,
   (validate_assertion_isolation ⟨[], 0⟩ "f" tTwoFail).1 tTwoFail_outcomes⟩

theorem tGood_all_ok :
    ∀ p ∈ verificationMethods, p.2 "f" tGood = Except.ok () := by
  simp [verificationMethods, tGood_fits, tGood_table, tGood_aperture,
    tGood_aperture_shape, tGood_thruster, tGood_quality, tGood_wcs_kw,
    tGood_wcs_coord, tGood_pos_flux, tGood_cdpp, tGood_campaign]

/-- C2: whenever every check terminates normally or with `AssertionError`,
`validate` increments `tpf_files_checked` by exactly one and returns
normally; on an all-pass file the issue list is left unchanged. -/
theorem validate_files_checked_increment
    (log : QualityIssueLogger) (fname : String) (t : TPF) :
    ((∀ p ∈ verificationMethods, p.2 fname t = Except.ok () ∨
        p.2 fname t = Except.error PyErr.assertionError) →
      (validate log fname t).2.1.tpf_files_checked = log.tpf_files_checked + 1 ∧
      (validate log fname t).2.2 = none)
    ∧ ((∀ p ∈ verificationMethods, p.2 fname t = Except.ok ()) →
      (validate log fname t).2.1 =
        { log with tpf_files_checked := log.tpf_files_checked + 1 }) := by
  constructor
  · intro h
    unfold validate
    rw [runChecks_ok_all fname t verificationMethods log h]
    exact ⟨rfl, rfl⟩
  · intro h
    have h2 : ∀ p ∈ verificationMethods, p.2 fname t = Except.ok () ∨
        p.2 fname t = Except.error PyErr.assertionError :=
      fun p hp => Or.inl (h p hp)
    unfold validate
    rw [runChecks_ok_all fname t verificationMethods log h2,
      failingNames_nil_of_ok fname t verificationMethods h]
    simp

/-- Witness for C2 at an all-pass file. -/
theorem validate_files_checked_increment_witness :
    (∀ p ∈ verificationMethods, p.2 "f" tGood = Except.ok ()) ∧
    (validate ⟨[], 0⟩ "f" tGood).2.1.tpf_files_checked = 0 + 1 ∧
    (validate ⟨[], 0⟩ "f" tGood).2.1 =
      { (⟨[], 0⟩ : QualityIssueLogger) with tpf_files_checked := 0 + 1 } :=
  ⟨tGood_all_ok,
   ((validate_files_checked_increment ⟨[], 0⟩ "f" tGood).1
      (fun p hp => Or.inl (tGood_all_ok p hp))).1,
   (validate_files_checked_increment ⟨[], 0⟩ "f" tGood).2 tGood_all_ok⟩

theorem tTwoFail_failing :
    failingNames "f" tTwoFail verificationMethods =
      ["verify_aperture_img", "verify_fits_standard"] := by
  simp [failingNames, verificationMethods, tTwoFail_fits, tTwoFail_table,
    tTwoFail_aperture, tTwoFail_aperture_shape, tTwoFail_thruster,
    tTwoFail_quality, tTwoFail_wcs_kw, tTwoFail_wcs_coord, tTwoFail_pos_flux,
    tTwoFail_cdpp, tTwoFail_campaign]

/-- C3 counterexample: on a file failing exactly `fits_standard` and
`aperture_img`, the issues come out with `aperture_img` first, although
the source declares `fits_standard` first: the run order is not the
declaration order. -/
theorem validate_order_counterexample :
    (validate ⟨[], 0⟩ "f" tTwoFail).2.1.issues =
      [fmtIssue "f".data "verify_aperture_img".data,
       fmtIssue "f".data "verify_fits_standard".data] ∧
    declarationOrderNames.indexOf "verify_fits_standard" <
      declarationOrderNames.indexOf "verify_aperture_img" ∧
    verificationMethodNames ≠ declarationOrderNames := by
  refine ⟨?_, by decide, by decide⟩
  unfold validate
  rw [runChecks_ok_all "f" tTwoFail verificationMethods ⟨[], 0⟩ tTwoFail_outcomes]
  simp [tTwoFail_failing]

theorem runChecks_complete (fname : String) (t : TPF) :
    ∀ (l : CheckList) (log : QualityIssueLogger),
      (runChecks fname t log l).2.2 = none →
      (runChecks fname t log l).1 = l.map (fun p => Ev.runCheck p.1) := by
  intro l
  induction l with
  | nil => intro log _; rfl
  | cons p rest ih =>
    obtain ⟨n, c⟩ := p
    intro log h
    cases hc : c fname t with
    | ok u =>
      simp only [runChecks, hc] at h ⊢
      rw [List.map_cons]
      exact congrArg _ (ih log h)
    | error e =>
      cases e with
      | assertionError =>
        simp only [runChecks, hc] at h ⊢
        rw [List.map_cons]
        exact congrArg _ (ih (report_issue log fname.data n.data) h)
      | typeError => simp [runChecks, hc] at h
      | valueError => simp [runChecks, hc] at h
      | keyError => simp [runChecks, hc] at h
      | indexError => simp [runChecks, hc] at h
      | libError s => simp [runChecks, hc] at h

theorem checkEvents_open (fname : String) (evs : List Ev) :
    checkEvents (Ev.openFile fname :: evs) = checkEvents evs := rfl

theorem checkEvents_wrap (fname : String) (evs : List Ev) :
    checkEvents (Ev.openFile fname :: (evs ++ [Ev.closeFile])) =
      checkEvents evs := by
  simp [checkEvents, List.filterMap_append, List.filterMap_cons]

theorem checkEvents_map_run :
    ∀ xs : List String, checkEvents (xs.map Ev.runCheck) = xs := by
  intro xs
  induction xs with
  | nil => rfl
  | cons x rest ih => simp [checkEvents, List.filterMap_cons] at ih ⊢; exact ih

/-- C3 amended: within a run `validate` executes the same fixed check set
in the same order for every file — but that order is the alphabetical
(`dir()`) order of the method names, a permutation of the declaration
order, not the declaration order itself. -/
theorem validate_order_amended :
    verificationMethodNames.Perm declarationOrderNames ∧
    List.Pairwise (fun a b => charListLt a.data b.data = true)
      verificationMethodNames ∧
    ∀ (log : QualityIssueLogger) (fname : String) (t : TPF),
      checkEvents (validate log fname t).1 <+: verificationMethodNames ∧
      ((validate log fname t).2.2 = none →
        checkEvents (validate log fname t).1 = verificationMethodNames) := by
  refine ⟨by decide, by decide, ?_⟩
  intro log fname t
  have htr := runChecks_trace fname t verificationMethods log
  have hcomp := runChecks_complete fname t verificationMethods log
  rcases hr : runChecks fname t log verificationMethods with ⟨evs, log2, err⟩
  rw [hr] at htr hcomp
  cases err with
  | none =>
    unfold validate
    rw [hr]
    have hevs : evs = verificationMethods.map (fun p => Ev.runCheck p.1) :=
      hcomp rfl
    constructor
    · rw [checkEvents_wrap, hevs]
      have : verificationMethods.map (fun p => Ev.runCheck p.1) =
          verificationMethodNames.map Ev.runCheck := by
        simp [verificationMethodNames, List.map_map]
      rw [this, checkEvents_map_run]
    · intro _
      rw [checkEvents_wrap, hevs]
      have : verificationMethods.map (fun p => Ev.runCheck p.1) =
          verificationMethodNames.map Ev.runCheck := by
        simp [verificationMethodNames, List.map_map]
      rw [this, checkEvents_map_run]
  | some e =>
    unfold validate
    rw [hr]
    constructor
    · rw [checkEvents_open]
      exact htr.2.2
    · intro hno
      simp at hno

theorem openEvents_wrap (fname : String) (evs : List Ev) :
    openEvents (Ev.openFile fname :: (evs ++ [Ev.closeFile])) =
      fname :: openEvents evs := by
  simp [openEvents, List.filterMap_cons, List.filterMap_append]

theorem openEvents_open (fname : String) (evs : List Ev) :
    openEvents (Ev.openFile fname :: evs) = fname :: openEvents evs := rfl

theorem closeCount_wrap (fname : String) (evs : List Ev) :
    closeCount (Ev.openFile fname :: (evs ++ [Ev.closeFile])) =
      closeCount evs + 1 := by
  simp [closeCount, List.filter_append, List.filter_cons]

theorem closeCount_open (fname : String) (evs : List Ev) :
    closeCount (Ev.openFile fname :: evs) = closeCount evs := rfl

theorem tGood_validate_none : (validate ⟨[], 0⟩ "f" tGood).2.2 = none := by
  unfold validate
  rw [runChecks_ok_all "f" tGood verificationMethods ⟨[], 0⟩
    (fun p hp => Or.inl (tGood_all_ok p hp))]

/-- Witness for the inner hypothesis of C3's amended theorem, at an
all-pass file. -/
theorem validate_order_amended_witness :
    (validate ⟨[], 0⟩ "f" tGood).2.2 = none ∧
    checkEvents (validate ⟨[], 0⟩ "f" tGood).1 = verificationMethodNames :=
  ⟨tGood_validate_none,
   (validate_order_amended.2.2 ⟨[], 0⟩ "f" tGood).2 tGood_validate_none⟩

/-- C4 amended: `validate` opens the file exactly once and closes it
whenever the check loop completes (all checks passing or failing only by
assertion), but when a non-assertion exception escapes, the file is left
open: there is no try/finally around the loop. -/
theorem validate_close_amended
    (log : QualityIssueLogger) (fname : String) (t : TPF) :
    openEvents (validate log fname t).1 = [fname] ∧
    ((validate log fname t).2.2 = none →
      closeCount (validate log fname t).1 = 1) ∧
    (∀ e, (validate log fname t).2.2 = some e →
      closeCount (validate log fname t).1 = 0) := by
  have htr := runChecks_trace fname t verificationMethods log
  rcases hr : runChecks fname t log verificationMethods with ⟨evs, log2, err⟩
  rw [hr] at htr
  obtain ⟨htr1, htr2, _⟩ := htr
  simp only at htr1 htr2
  cases err with
  | none =>
    unfold validate
    rw [hr]
    refine ⟨?_, fun _ => ?_, fun e he => ?_⟩
    · rw [openEvents_wrap, htr1]
    · rw [closeCount_wrap, htr2]
    · simp at he
  | some e0 =>
    unfold validate
    rw [hr]
    refine ⟨?_, fun hno => ?_, fun e he => ?_⟩
    · rw [openEvents_open, htr1]
    · simp at hno
    · rw [closeCount_open]
      exact htr2

theorem tStrCdpp_validate :
    validate ⟨[], 0⟩ "f" tStrCdpp =
      ([Ev.openFile "f", Ev.runCheck "verify_aperture_img",
        Ev.runCheck "verify_aperture_img_shape",
        Ev.runCheck "verify_campaign_number", Ev.runCheck "verify_cdpp"],
       ⟨[], 0⟩, some PyErr.valueError) := by
  simp [validate, runChecks, verificationMethods, tStrCdpp_aperture,
    tStrCdpp_aperture_shape, tStrCdpp_campaign, tStrCdpp_cdpp]

/-- C4 counterexample: on a file whose `CDPP3_0` card holds non-numeric
text, `verify_cdpp` raises `ValueError`, `validate` aborts, and the trace
shows the file opened but never closed. -/
theorem validate_close_counterexample :
    (validate ⟨[], 0⟩ "f" tStrCdpp).2.2 = some PyErr.valueError ∧
    openEvents (validate ⟨[], 0⟩ "f" tStrCdpp).1 = ["f"] ∧
    Ev.closeFile ∉ (validate ⟨[], 0⟩ "f" tStrCdpp).1 := by
  rw [tStrCdpp_validate]
  refine ⟨rfl, rfl, by decide⟩

/-- Witness for C4's amended theorem at an all-pass file. -/
theorem validate_close_amended_witness :
    (validate ⟨[], 0⟩ "f" tGood).2.2 = none ∧
    closeCount (validate ⟨[], 0⟩ "f" tGood).1 = 1 :=
  ⟨tGood_validate_none,
   (validate_close_amended ⟨[], 0⟩ "f" tGood).2.1 tGood_validate_none⟩

/-- C5 counterexample: a file with `KEPMAG` undefined (unset card) but a
non-positive `CDPP3_0` fails the `cdpp` check — the `CDPP > 0` assertion
fires before the `float(KEPMAG)` conversion is reached, so "unset KEPMAG"
does not imply a pass. -/
theorem verify_cdpp_counterexample :
    tUnsetKepmag.hdr0 "KEPMAG" = some HVal.undef ∧
    verify_cdpp tUnsetKepmag = Except.error PyErr.assertionError :=
  ⟨by decide, tUnsetKepmag_cdpp⟩

/-- C5 amended: with all four fields numeric, `cdpp` fails exactly when
some CDPP value is non-positive or `KEPMAG < 15` and some CDPP value is
not below 10000; an undefined (`None`) `CDPP3_0` is reached first and
makes the check pass via the caught `TypeError`; non-numeric text in
`CDPP3_0` raises an uncaught `ValueError`. -/
theorem verify_cdpp_amended :
    (∀ (t : TPF) (a b c m : ℚ),
      t.hdr1 "CDPP3_0" = some (HVal.num a) →
      t.hdr1 "CDPP6_0" = some (HVal.num b) →
      t.hdr1 "CDPP12_0" = some (HVal.num c) →
      t.hdr0 "KEPMAG" = some (HVal.num m) →
      (verify_cdpp t = Except.ok () ↔
        (0 < a ∧ 0 < b ∧ 0 < c ∧
          (m < 15 → a < 10000 ∧ b < 10000 ∧ c < 10000))) ∧
      (verify_cdpp t = Except.error PyErr.assertionError ↔
        ¬ (0 < a ∧ 0 < b ∧ 0 < c ∧
          (m < 15 → a < 10000 ∧ b < 10000 ∧ c < 10000))))
    ∧ (∀ t : TPF, t.hdr1 "CDPP3_0" = some HVal.undef →
        verify_cdpp t = Except.ok ())
    ∧ (∀ (t : TPF) (s : String), t.hdr1 "CDPP3_0" = some (HVal.str s) →
        verify_cdpp t = Except.error PyErr.valueError) := by
  refine ⟨?_, ?_, ?_⟩
  · intro t a b c m h1 h2 h3 h4
    have hval : verify_cdpp t =
        (if 0 < a ∧ 0 < b ∧ 0 < c ∧
            (m < 15 → a < 10000 ∧ b < 10000 ∧ c < 10000) then
          Except.ok () else Except.error PyErr.assertionError) := by
      simp only [verify_cdpp, cdppBody, headerGet, h1, h2, h3, h4, pyFloat,
        pyAssert]
      split_ifs <;> simp_all
    rw [hval]
    constructor
    · constructor
      · intro hok
        by_contra hcond
        rw [if_neg hcond] at hok
        exact absurd hok (by simp)
      · intro hcond
        rw [if_pos hcond]
    · constructor
      · intro hfail
        intro hcond
        rw [if_pos hcond] at hfail
        exact absurd hfail (by simp)
      · intro hcond
        rw [if_neg hcond]
  · intro t h
    simp [verify_cdpp, cdppBody, headerGet, h, pyFloat]
  · intro t s h
    simp [verify_cdpp, cdppBody, headerGet, h, pyFloat]

/-- Witness for C5's amended theorem at the all-pass file. -/
theorem verify_cdpp_amended_witness :
    tGood.hdr1 "CDPP3_0" = some (HVal.num 100) ∧
    tGood.hdr1 "CDPP6_0" = some (HVal.num 100) ∧
    tGood.hdr1 "CDPP12_0" = some (HVal.num 100) ∧
    tGood.hdr0 "KEPMAG" = some (HVal.num 16) ∧
    (verify_cdpp tGood = Except.ok () ↔
      ((0:ℚ) < 100 ∧ (0:ℚ) < 100 ∧ (0:ℚ) < 100 ∧
        ((16:ℚ) < 15 → (100:ℚ) < 10000 ∧ (100:ℚ) < 10000 ∧ (100:ℚ) < 10000))) :=
  ⟨by decide, by decide, by decide, by decide,
   ((verify_cdpp_amended.1 tGood 100 100 100 16 (by decide) (by decide)
      (by decide) (by decide)).1)⟩

/-- C6 counterexample: `check_path` on a path that names a single file
never processes it, even when the filename matches `*-targ.fits`: the
code only globs under the path, and globbing under a non-directory
matches nothing. -/
theorem check_path_counterexample :
    ("-targ.fits").data.isSuffixOf ("a-targ.fits").data = true ∧
    (FS.mk "a-targ.fits" false []).isDir = false ∧
    check_path_filenames (FS.mk "a-targ.fits" false []) = [] := by
  refine ⟨by decide, rfl, rfl⟩

/-- C6 amended: a single-file path yields no processed files at all; for
a directory, exactly the entries directly under it ending in
`-targ.fits` or `-targ.fits.gz` are processed. -/
theorem check_path_amended (fs : FS) :
    (fs.isDir = false → check_path_filenames fs = []) ∧
    (fs.isDir = true → ∀ n : String,
      n ∈ check_path_filenames fs ↔
        (n ∈ fs.entries ∧
          (("-targ.fits").data.isSuffixOf n.data = true ∨
           ("-targ.fits.gz").data.isSuffixOf n.data = true))) := by
  constructor
  · intro h
    simp [check_path_filenames, globSuffix, h]
  · intro h n
    simp [check_path_filenames, globSuffix, h, List.mem_append,
      List.mem_filter, and_or_left]

/-- Witness for C6's amended theorem: a directory holding one matching
and one non-matching entry processes exactly the matching one. -/
theorem check_path_amended_witness :
    (FS.mk "d" true ["k-targ.fits", "readme.txt"]).isDir = true ∧
    ("k-targ.fits" ∈
        check_path_filenames (FS.mk "d" true ["k-targ.fits", "readme.txt"]) ↔
      ("k-targ.fits" ∈ ["k-targ.fits", "readme.txt"] ∧
        (("-targ.fits").data.isSuffixOf ("k-targ.fits").data = true ∨
         ("-targ.fits.gz").data.isSuffixOf ("k-targ.fits").data = true))) :=
  ⟨rfl,
   (check_path_amended (FS.mk "d" true ["k-targ.fits", "readme.txt"])).2 rfl
     "k-targ.fits"⟩

/-- C7: `thruster_flags` passes when `CAMPAIGN` is absent or one of
91/92/101; otherwise, with a numeric `TELAPSE`, it fails exactly when the
count of thruster-flagged cadences does not exceed `TELAPSE`. -/
theorem verify_thruster_flags_characterization :
    (∀ t : TPF, t.hdr0 "CAMPAIGN" = none → verify_thruster_flags t = Except.ok ())
    ∧ (∀ (t : TPF) (q : ℚ), t.hdr0 "CAMPAIGN" = some (HVal.num q) →
        (q = 91 ∨ q = 92 ∨ q = 101) → verify_thruster_flags t = Except.ok ())
    ∧ (∀ (t : TPF) (v : HVal) (τ : ℚ), t.hdr0 "CAMPAIGN" = some v →
        hvalInIntList v CAMPAIGNS_WITHOUT_THRUSTER_FLAGS = false →
        t.hdr1 "TELAPSE" = some (HVal.num τ) →
        (verify_thruster_flags t = Except.ok () ↔
          τ < (countThrusterFirings t.quality : ℚ)) ∧
        (verify_thruster_flags t = Except.error PyErr.assertionError ↔
          ¬ τ < (countThrusterFirings t.quality : ℚ))) := by
  refine ⟨?_, ?_, ?_⟩
  · intro t h
    simp [verify_thruster_flags, h]
  · intro t q h hq
    have hin : hvalInIntList (HVal.num q) CAMPAIGNS_WITHOUT_THRUSTER_FLAGS = true := by
      rcases hq with rfl | rfl | rfl <;> decide
    simp [verify_thruster_flags, h, hin]
  · intro t v τ h hnot ht
    simp only [verify_thruster_flags, h, hnot, headerGet, ht, numHV,
      Bool.false_eq_true, if_false, pyAssert]
    constructor
    · constructor
      · intro hok
        by_contra hcond
        rw [if_neg hcond] at hok
        exact absurd hok (by simp)
      · intro hcond
        rw [if_pos hcond]
    · constructor
      · intro hfail hcond
        rw [if_pos hcond] at hfail
        exact absurd hfail (by simp)
      · intro hcond
        rw [if_neg hcond]

/-- Witness for C7 on a file with `CAMPAIGN = 5`, one elapsed day and no
thruster firings: the check fails. -/
theorem verify_thruster_flags_characterization_witness :
    tCampaign.hdr0 "CAMPAIGN" = some (HVal.num 5) ∧
    hvalInIntList (HVal.num 5) CAMPAIGNS_WITHOUT_THRUSTER_FLAGS = false ∧
    tCampaign.hdr1 "TELAPSE" = some (HVal.num 1) ∧
    (verify_thruster_flags tCampaign = Except.error PyErr.assertionError ↔
      ¬ (1:ℚ) < (countThrusterFirings tCampaign.quality : ℚ)) :=
  ⟨by decide, by decide, by decide,
   ((verify_thruster_flags_characterization.2.2 tCampaign (HVal.num 5) 1
      (by decide) (by decide) (by decide)).2)⟩

theorem sum_map_ne_zero_iff {α : Type} (l : List α) (f : α → Nat) :
    (l.map f).sum ≠ 0 ↔ ∃ a ∈ l, f a ≠ 0 := by
  rw [Ne, List.sum_eq_zero_iff]
  push_neg
  constructor
  · rintro ⟨x, hx, hne⟩
    rw [List.mem_map] at hx
    obtain ⟨a, ha, rfl⟩ := hx
    exact ⟨a, ha, hne⟩
  · rintro ⟨a, ha, hne⟩
    exact ⟨f a, List.mem_map_of_mem f ha, hne⟩

theorem maskedNegTotal_pos_iff (t : TPF) :
    0 < maskedNegTotal t ↔ hasNegFluxAtGoodCadence t := by
  unfold maskedNegTotal hasNegFluxAtGoodCadence
  rw [Nat.pos_iff_ne_zero, sum_map_ne_zero_iff]
  constructor
  · rintro ⟨c, hc, hne⟩
    rw [List.mem_filter, List.mem_range] at hc
    obtain ⟨hlt, hq⟩ := hc
    refine ⟨c, hlt, by simpa using hq, ?_⟩
    unfold negCount at hne
    rw [sum_map_ne_zero_iff] at hne
    obtain ⟨i, hi, hlen⟩ := hne
    rw [List.mem_range] at hi
    refine ⟨i, hi, ?_⟩
    rw [Ne, List.length_eq_zero, List.filter_eq_nil_iff] at hlen
    push_neg at hlen
    obtain ⟨j, hj, hneg⟩ := hlen
    rw [List.mem_range] at hj
    exact ⟨j, hj, by simpa using hneg⟩
  · rintro ⟨c, hc, hq, i, hi, j, hj, hneg⟩
    refine ⟨c, ?_, ?_⟩
    · rw [List.mem_filter, List.mem_range]
      exact ⟨hc, by simpa using hq⟩
    · unfold negCount
      rw [sum_map_ne_zero_iff]
      refine ⟨i, List.mem_range.mpr hi, ?_⟩
      rw [Ne, List.length_eq_zero, List.filter_eq_nil_iff]
      push_neg
      exact ⟨j, List.mem_range.mpr hj, by simpa using hneg⟩

theorem positiveFluxScan_spec (t : TPF) :
    ((positiveFluxScan t).2 = Except.error PyErr.assertionError ↔
      hasNegFluxAtGoodCadence t) ∧
    ((positiveFluxScan t).2 = Except.error PyErr.assertionError →
      (positiveFluxScan t).1 = offendingPrints t) ∧
    ((positiveFluxScan t).2 = Except.ok () → (positiveFluxScan t).1 = []) := by
  unfold positiveFluxScan
  split_ifs with h
  · rw [maskedNegTotal_pos_iff] at h
    exact ⟨by simpa using h, fun _ => rfl, fun hok => absurd hok (by simp)⟩
  · rw [maskedNegTotal_pos_iff] at h
    exact ⟨by simpa using h, fun hf => absurd hf (by simp), fun _ => rfl⟩

/-- C8: `positive_flux` skips entirely on channel 43 with `CRVAL1P`
below 100; otherwise it fails exactly when some `FLUX + FLUX_BKG` pixel
is negative at a `QUALITY == 0` cadence, printing each offending
(frame, pixel) coordinate before the failure and printing nothing on a
pass. -/
theorem verify_positive_flux_characterization :
    (∀ (t : TPF) (cr : ℚ),
      t.hdr0 "CHANNEL" = some (HVal.num 43) →
      t.hdr2 "CRVAL1P" = some (HVal.num cr) → cr < 100 →
      verify_positive_flux_run t = ([], Except.ok ()))
    ∧ (∀ (t : TPF) (ch : ℚ),
      t.hdr0 "CHANNEL" = some (HVal.num ch) → ch ≠ 43 →
      ((verify_positive_flux_run t).2 = Except.error PyErr.assertionError ↔
        hasNegFluxAtGoodCadence t) ∧
      ((verify_positive_flux_run t).2 = Except.error PyErr.assertionError →
        (verify_positive_flux_run t).1 = offendingPrints t) ∧
      ((verify_positive_flux_run t).2 = Except.ok () →
        (verify_positive_flux_run t).1 = []))
    ∧ (∀ (t : TPF) (cr : ℚ),
      t.hdr0 "CHANNEL" = some (HVal.num 43) →
      t.hdr2 "CRVAL1P" = some (HVal.num cr) → ¬ cr < 100 →
      ((verify_positive_flux_run t).2 = Except.error PyErr.assertionError ↔
        hasNegFluxAtGoodCadence t) ∧
      ((verify_positive_flux_run t).2 = Except.error PyErr.assertionError →
        (verify_positive_flux_run t).1 = offendingPrints t) ∧
      ((verify_positive_flux_run t).2 = Except.ok () →
        (verify_positive_flux_run t).1 = [])) := by
  refine ⟨?_, ?_, ?_⟩
  · intro t cr hch hcr hlt
    simp [verify_positive_flux_run, headerGet, hch, hcr, pyEqInt, pyEqHV,
      pyLtNum, hlt]
  · intro t ch hch hne
    have : verify_positive_flux_run t = positiveFluxScan t := by
      simp [verify_positive_flux_run, headerGet, hch, pyEqInt, pyEqHV, hne]
    rw [this]
    exact positiveFluxScan_spec t
  · intro t cr hch hcr hge
    have : verify_positive_flux_run t = positiveFluxScan t := by
      simp [verify_positive_flux_run, headerGet, hch, hcr, pyEqInt, pyEqHV,
        pyLtNum, hge]
    rw [this]
    exact positiveFluxScan_spec t

/-- Witness for C8: the bad-column file (channel 43, `CRVAL1P = 50`) has
negative flux sums yet passes with no output. -/
theorem verify_positive_flux_characterization_witness :
    tBadColumn.hdr0 "CHANNEL" = some (HVal.num 43) ∧
    tBadColumn.hdr2 "CRVAL1P" = some (HVal.num 50) ∧
    (50:ℚ) < 100 ∧
    verify_positive_flux_run tBadColumn = ([], Except.ok ()) :=
  ⟨by decide, by decide, by decide,
   verify_positive_flux_characterization.1 tBadColumn 50 (by decide)
     (by decide) (by decide)⟩

/-! ### The issue-file round trip -/

theorem splitFirstSep_append (c : List Char) :
    ∀ f : List Char, splitFirstSep f = none →
      splitFirstSep (f ++ ':' :: ' ' :: c) = some (f, c) := by
  intro f
  induction f with
  | nil => intro _; rfl
  | cons a f' ih =>
    intro hf
    rw [splitFirstSep] at hf
    by_cases hcnd : a = ':' ∧ f'.head? = some ' '
    · rw [if_pos hcnd] at hf
      exact absurd hf (by simp)
    · rw [if_neg hcnd] at hf
      have hf' : splitFirstSep f' = none := by
        cases hsp : splitFirstSep f' with
        | none => rfl
        | some p => rw [hsp] at hf; simp at hf
      have hgcond : ¬(a = ':' ∧ (f' ++ ':' :: ' ' :: c).head? = some ' ') := by
        rintro ⟨rfl, hh⟩
        cases f' with
        | nil => simp at hh
        | cons x xs =>
          simp at hh
          exact hcnd ⟨rfl, by simp [hh]⟩
      rw [List.cons_append, splitFirstSep, if_neg hgcond, ih hf']

theorem splitLines_append (rest : List Char) :
    ∀ m : List Char, ¬ '\n' ∈ m →
      splitLines (m ++ '\n' :: rest) = m :: splitLines rest := by
  intro m
  induction m with
  | nil => intro _; rfl
  | cons a m' ih =>
    intro hm
    have ha : ¬ a = '\n' := fun h => hm (h ▸ List.mem_cons_self a m')
    have hm' : ¬ '\n' ∈ m' := fun h => hm (List.mem_cons_of_mem a h)
    rw [List.cons_append, splitLines, if_neg ha, ih hm']

theorem record_issues_flatten (log : QualityIssueLogger) (prior : List Char) :
    record_issues log prior = (log.issues.map (fun m => m ++ ['\n'])).flatten := by
  unfold record_issues
  have haux : ∀ (l : List (List Char)) (acc : List Char),
      l.foldl (fun a m => a ++ m ++ ['\n']) acc =
        acc ++ (l.map (fun m => m ++ ['\n'])).flatten := by
    intro l
    induction l with
    | nil => intro acc; simp
    | cons m rest ih =>
      intro acc
      rw [List.foldl_cons, ih]
      simp [List.append_assoc]
  simpa using haux log.issues []

theorem reportAll_issues :
    ∀ (pairs : List (List Char × List Char)) (log : QualityIssueLogger),
      (reportAll log pairs).issues =
        log.issues ++ pairs.map (fun p => fmtIssue p.1 p.2) := by
  intro pairs
  induction pairs with
  | nil => intro log; simp [reportAll]
  | cons p rest ih => intro log; simp [reportAll, ih, report_issue, List.append_assoc]

theorem splitLines_flatten :
    ∀ msgs : List (List Char), (∀ m ∈ msgs, ¬ '\n' ∈ m) →
      splitLines ((msgs.map (fun m => m ++ ['\n'])).flatten) = msgs := by
  intro msgs
  induction msgs with
  | nil => intro _; rfl
  | cons m rest ih =>
    intro h
    have hm : ¬ '\n' ∈ m := h m (List.mem_cons_self _ _)
    have hrest := ih (fun x hx => h x (List.mem_cons_of_mem _ hx))
    calc splitLines (((m :: rest).map (fun x => x ++ ['\n'])).flatten)
        = splitLines (m ++ '\n' :: ((rest.map (fun x => x ++ ['\n'])).flatten)) := by
          simp [List.append_assoc]
      _ = m :: splitLines ((rest.map (fun x => x ++ ['\n'])).flatten) :=
          splitLines_append _ m hm
      _ = m :: rest := by rw [hrest]

/-- C9 counterexample: the `"<filename>: <check_name>"` encoding is not
injective — reporting `("a", "b: c")` and reporting `("a: b", "c")`
produce identical file contents — so no re-parse can reproduce the exact
reported pairs for every input. -/
theorem record_issues_counterexample :
    record_issues (reportAll ⟨[], 0⟩ [(("a").data, ("b: c").data)]) [] =
      record_issues (reportAll ⟨[], 0⟩ [(("a: b").data, ("c").data)]) [] ∧
    [(("a").data, ("b: c").data)] ≠ [(("a: b").data, ("c").data)] ∧
    ¬ ∃ parse : List Char → List (List Char × List Char),
        ∀ pairs : List (List Char × List Char),
          parse (record_issues (reportAll ⟨[], 0⟩ pairs) []) = pairs := by
  refine ⟨by decide, by decide, ?_⟩
  rintro ⟨parse, hp⟩
  have h1 := hp [(("a").data, ("b: c").data)]
  have h2 := hp [(("a: b").data, ("c").data)]
  rw [show record_issues (reportAll ⟨[], 0⟩ [(("a").data, ("b: c").data)]) [] =
      record_issues (reportAll ⟨[], 0⟩ [(("a: b").data, ("c").data)]) [] from
    by decide] at h1
  rw [h2] at h1
  exact absurd h1 (by decide)

/-- C9 amended: `record_issues` writes one `"<filename>: <check_name>"`
line per issue in report order, ignoring the sink's prior contents; and
provided no filename or check name contains a newline and no filename
contains the `": "` separator, re-parsing the output reproduces exactly
the reported pairs in order. -/
theorem record_issues_roundtrip :
    (∀ (log : QualityIssueLogger) (prior₁ prior₂ : List Char),
      record_issues log prior₁ = record_issues log prior₂)
    ∧ (∀ (log : QualityIssueLogger) (prior : List Char),
      record_issues log prior =
        (log.issues.map (fun m => m ++ ['\n'])).flatten)
    ∧ (∀ (pairs : List (List Char × List Char)) (prior : List Char),
      (∀ p ∈ pairs, ¬ '\n' ∈ p.1 ∧ ¬ '\n' ∈ p.2 ∧ splitFirstSep p.1 = none) →
      parseIssues (record_issues (reportAll ⟨[], 0⟩ pairs) prior) = pairs) := by
  refine ⟨fun log p1 p2 => rfl, record_issues_flatten, ?_⟩
  intro pairs prior h
  rw [record_issues_flatten]
  rw [reportAll_issues pairs ⟨[], 0⟩]
  have hnl : ∀ m ∈ ([] : List (List Char)) ++
      pairs.map (fun p => fmtIssue p.1 p.2), ¬ '\n' ∈ m := by
    intro m hm
    rw [List.nil_append, List.mem_map] at hm
    obtain ⟨p, hp, rfl⟩ := hm
    obtain ⟨h1, h2, _⟩ := h p hp
    intro hmem
    rw [fmtIssue] at hmem
    rcases List.mem_append.mp hmem with hmem | hmem
    · rcases List.mem_append.mp hmem with hmem | hmem
      · exact h1 hmem
      · simp at hmem
    · exact h2 hmem
  unfold parseIssues
  rw [splitLines_flatten _ hnl]
  rw [List.nil_append, List.map_map]
  have : ∀ p ∈ pairs, (parseLine ∘ fun p => fmtIssue p.1 p.2) p = id p := by
    intro p hp
    obtain ⟨_, _, h3⟩ := h p hp
    show parseLine (fmtIssue p.1 p.2) = p
    have : fmtIssue p.1 p.2 = p.1 ++ ':' :: ' ' :: p.2 := by
      rw [fmtIssue]
      simp
    rw [this, parseLine, splitFirstSep_append p.2 p.1 h3]
  rw [List.map_congr_left this, List.map_id]

/-- Witness for C9's amended round trip on one well-formed issue. -/
theorem record_issues_roundtrip_witness :
    (∀ p ∈ [((("f").data : List Char), ("verify_cdpp").data)],
      ¬ '\n' ∈ p.1 ∧ ¬ '\n' ∈ p.2 ∧ splitFirstSep p.1 = none) ∧
    parseIssues (record_issues
        (reportAll ⟨[], 0⟩ [(("f").data, ("verify_cdpp").data)]) []) =
      [(("f").data, ("verify_cdpp").data)] :=
  ⟨by decide,
   record_issues_roundtrip.2.2 [(("f").data, ("verify_cdpp").data)] []
     (by decide)⟩

theorem mem_failingNames_of (fname : String) (t : TPF) :
    ∀ (l : CheckList) (n : String) (c : String → TPF → Except PyErr Unit),
      (n, c) ∈ l → c fname t = Except.error PyErr.assertionError →
      n ∈ failingNames fname t l := by
  intro l
  induction l with
  | nil => intro n c h _; simp at h
  | cons p rest ih =>
    intro n c h hc
    rcases List.mem_cons.mp h with heq | hmem
    · obtain ⟨rfl⟩ := heq.symm
      rw [failingNames, if_pos hc]
      exact List.mem_cons_self _ _
    · obtain ⟨m, d⟩ := p
      rw [failingNames]
      split_ifs with hcond
      · exact List.mem_cons_of_mem _ (ih n c hmem hc)
      · exact ih n c hmem hc

/-- C10: in `fits_standard` and `wcs_keywords` the entire library call is
wrapped in `except Exception: assert False`, so any library exception
becomes an `AssertionError` — a recorded Issue — and these two checks can
never raise anything else; by contrast, `cdpp` can raise `ValueError`,
which escapes `validate`. -/
theorem library_errors_become_assertion_failures :
    (∀ (t : TPF) (e : PyErr), t.verifyRes = Except.error e →
      verify_fits_standard t = Except.error PyErr.assertionError)
    ∧ (∀ t : TPF, verify_fits_standard t = Except.ok () ∨
        verify_fits_standard t = Except.error PyErr.assertionError)
    ∧ (∀ (t : TPF) (e : PyErr), t.wcsRes = Except.error e →
      verify_wcs_keywords t = Except.error PyErr.assertionError)
    ∧ (∀ t : TPF, verify_wcs_keywords t = Except.ok () ∨
        verify_wcs_keywords t = Except.error PyErr.assertionError)
    ∧ (∀ (fname : String) (t : TPF) (e : PyErr), t.verifyRes = Except.error e →
      "verify_fits_standard" ∈ failingNames fname t verificationMethods)
    ∧ (verify_cdpp tStrCdpp = Except.error PyErr.valueError ∧
      (validate ⟨[], 0⟩ "f" tStrCdpp).2.2 = some PyErr.valueError) := by
  refine ⟨?_, ?_, ?_, ?_, ?_, ?_⟩
  · intro t e he
    simp [verify_fits_standard, he]
  · intro t
    cases hv : t.verifyRes with
    | ok u => left; simp [verify_fits_standard, hv]
    | error e => right; simp [verify_fits_standard, hv]
  · intro t e he
    simp [verify_wcs_keywords, he]
  · intro t
    cases hv : t.wcsRes with
    | ok u => left; simp [verify_wcs_keywords, hv]
    | error e => right; simp [verify_wcs_keywords, hv]
  · intro fname t e he
    refine mem_failingNames_of fname t verificationMethods
      "verify_fits_standard" (fun _ t => verify_fits_standard t) ?_ ?_
    · show _ ∈ verificationMethods
      exact List.mem_cons_of_mem _ (List.mem_cons_of_mem _
        (List.mem_cons_of_mem _ (List.mem_cons_of_mem _
          (List.mem_cons_self _ _))))
    · show verify_fits_standard t = Except.error PyErr.assertionError
      simp [verify_fits_standard, he]
  · refine ⟨tStrCdpp_cdpp, ?_⟩
    rw [tStrCdpp_validate]

/-- Witness for C10 at the file whose FITS-integrity oracle raises. -/
theorem library_errors_become_assertion_failures_witness :
    tTwoFail.verifyRes = Except.error (PyErr.libError "VerifyError") ∧
    verify_fits_standard tTwoFail = Except.error PyErr.assertionError ∧
    "verify_fits_standard" ∈ failingNames "f" tTwoFail verificationMethods :=
  ⟨by decide,
   library_errors_become_assertion_failures.1 tTwoFail
     (PyErr.libError "VerifyError") (by decide),
   library_errors_become_assertion_failures.2.2.2.2.1 "f" tTwoFail
     (PyErr.libError "VerifyError") (by decide)⟩
